import Mathlib

/-!
# DCMTK transfer syntax descriptors (`dcmdata/dcxfer.h`) and character set conversion

A shallow embedding of the transfer syntax enumeration `E_TransferSyntax`, of the
descriptor class `DcmXfer` with its inline queries and comparison operators, and of the
parts of the library that the header only declares (the table of transfer syntaxes, the
constructors, `getXferKeyword`, `sizeofTagHeader`) or that only the test
`ofstd/tests/tchrenc.cc` exercises (`OFCharacterEncoding`).
-/

namespace Dcmtk

/-! ## Enumerations of `dcxfer.h` -/

/-- Enumeration of all DICOM transfer syntaxes known to the toolkit. -/
inductive E_TransferSyntax where
  /-- Unknown transfer syntax or dataset created in-memory -/
  | EXS_Unknown
  /-- Implicit VR Little Endian -/
  | EXS_LittleEndianImplicit
  /-- Implicit VR Big Endian (pseudo transfer syntax that does not really exist) -/
  | EXS_BigEndianImplicit
  /-- Explicit VR Little Endian -/
  | EXS_LittleEndianExplicit
  /-- Explicit VR Big Endian -/
  | EXS_BigEndianExplicit
  /-- JPEG Baseline (lossy) -/
  | EXS_JPEGProcess1
  /-- JPEG Extended Sequential (lossy, 8/12 bit) -/
  | EXS_JPEGProcess2_4
  /-- JPEG Extended Sequential (lossy, 8/12 bit), arithmetic coding -/
  | EXS_JPEGProcess3_5
  /-- JPEG Spectral Selection, Non-Hierarchical (lossy, 8/12 bit) -/
  | EXS_JPEGProcess6_8
  /-- JPEG Spectral Selection, Non-Hierarchical (lossy, 8/12 bit), arithmetic coding -/
  | EXS_JPEGProcess7_9
  /-- JPEG Full Progression, Non-Hierarchical (lossy, 8/12 bit) -/
  | EXS_JPEGProcess10_12
  /-- JPEG Full Progression, Non-Hierarchical (lossy, 8/12 bit), arithmetic coding -/
  | EXS_JPEGProcess11_13
  /-- JPEG Lossless with any selection value -/
  | EXS_JPEGProcess14
  /-- JPEG Lossless with any selection value, arithmetic coding -/
  | EXS_JPEGProcess15
  /-- JPEG Extended Sequential, Hierarchical (lossy, 8/12 bit) -/
  | EXS_JPEGProcess16_18
  /-- JPEG Extended Sequential, Hierarchical (lossy, 8/12 bit), arithmetic coding -/
  | EXS_JPEGProcess17_19
  /-- JPEG Spectral Selection, Hierarchical (lossy, 8/12 bit) -/
  | EXS_JPEGProcess20_22
  /-- JPEG Spectral Selection, Hierarchical (lossy, 8/12 bit), arithmetic coding -/
  | EXS_JPEGProcess21_23
  /-- JPEG Full Progression, Hierarchical (lossy, 8/12 bit) -/
  | EXS_JPEGProcess24_26
  /-- JPEG Full Progression, Hierarchical (lossy, 8/12 bit), arithmetic coding -/
  | EXS_JPEGProcess25_27
  /-- JPEG Lossless, Hierarchical -/
  | EXS_JPEGProcess28
  /-- JPEG Lossless, Hierarchical, arithmetic coding -/
  | EXS_JPEGProcess29
  /-- JPEG Lossless, Selection Value 1 -/
  | EXS_JPEGProcess14SV1
  /-- Run Length Encoding (lossless) -/
  | EXS_RLELossless
  /-- Deflated Explicit VR Little Endian -/
  | EXS_DeflatedLittleEndianExplicit
  /-- JPEG-LS (lossless) -/
  | EXS_JPEGLSLossless
  /-- JPEG-LS (lossless or near-lossless mode) -/
  | EXS_JPEGLSLossy
  /-- JPEG 2000 (lossless) -/
  | EXS_JPEG2000LosslessOnly
  /-- JPEG 2000 (lossless or lossy) -/
  | EXS_JPEG2000
  /-- JPEG 2000 part 2 multi-component extensions (lossless) -/
  | EXS_JPEG2000MulticomponentLosslessOnly
  /-- JPEG 2000 part 2 multi-component extensions (lossless or lossy) -/
  | EXS_JPEG2000Multicomponent
  /-- JPIP Referenced -/
  | EXS_JPIPReferenced
  /-- JPIP Referenced Deflate -/
  | EXS_JPIPReferencedDeflate
  /-- MPEG2 Main Profile at Main Level -/
  | EXS_MPEG2MainProfileAtMainLevel
  /-- Fragmentable MPEG2 Main Profile / Main Level -/
  | EXS_FragmentableMPEG2MainProfileMainLevel
  /-- MPEG2 Main Profile at High Level -/
  | EXS_MPEG2MainProfileAtHighLevel
  /-- Fragmentable MPEG2 Main Profile / High Level -/
  | EXS_FragmentableMPEG2MainProfileHighLevel
  /-- MPEG4 High Profile / Level 4.1 -/
  | EXS_MPEG4HighProfileLevel4_1
  /-- Fragmentable MPEG4 High Profile / Level 4.1 -/
  | EXS_FragmentableMPEG4HighProfileLevel4_1
  /-- MPEG4 BD-compatible High Profile / Level 4.1 -/
  | EXS_MPEG4BDcompatibleHighProfileLevel4_1
  /-- Fragmentable MPEG4 BD-compatible High Profile / Level 4.1 -/
  | EXS_FragmentableMPEG4BDcompatibleHighProfileLevel4_1
  /-- MPEG4 High Profile / Level 4.2 For 2D Video -/
  | EXS_MPEG4HighProfileLevel4_2_For2DVideo
  /-- Fragmentable MPEG4 High Profile / Level 4.2 For 2D Video -/
  | EXS_FragmentableMPEG4HighProfileLevel4_2_For2DVideo
  /-- MPEG4 High Profile / Level 4.2 For 3D Video -/
  | EXS_MPEG4HighProfileLevel4_2_For3DVideo
  /-- Fragmentable MPEG4 Stereo High Profile / Level 4.2 -/
  | EXS_FragmentableMPEG4HighProfileLevel4_2_For3DVideo
  /-- MPEG4 Stereo High Profile / Level 4.2 -/
  | EXS_MPEG4StereoHighProfileLevel4_2
  /-- Fragmentable HEVC/H.265 Main Profile / Level 5.1 -/
  | EXS_FragmentableMPEG4StereoHighProfileLevel4_2
  /-- HEVC/H.265 Main Profile / Level 5.1 -/
  | EXS_HEVCMainProfileLevel5_1
  /-- HEVC/H.265 Main 10 Profile / Level 5.1 -/
  | EXS_HEVCMain10ProfileLevel5_1
  /-- High-Throughput JPEG 2000 Image Compression (Lossless Only) -/
  | EXS_HighThroughputJPEG2000LosslessOnly
  /-- High-Throughput JPEG 2000 with RPCL Options Image Compression (Lossless Only) -/
  | EXS_HighThroughputJPEG2000withRPCLOptionsLosslessOnly
  /-- High-Throughput JPEG 2000 Image Compression -/
  | EXS_HighThroughputJPEG2000
  /-- JPIP HTJ2K Referenced -/
  | EXS_JPIPHTJ2KReferenced
  /-- JPIP HTJ2K Referenced Deflate -/
  | EXS_JPIPHTJ2KReferencedDeflate
  /-- Private GE Little Endian Implicit with big endian pixel data -/
  | EXS_PrivateGE_LEI_WithBigEndianPixelData
  deriving DecidableEq, Repr

/-- Numeric code of a transfer syntax enumerator, as written in the header. -/
def E_TransferSyntax.toInt : E_TransferSyntax → Int
  | .EXS_Unknown => -1
  | .EXS_LittleEndianImplicit => 0
  | .EXS_BigEndianImplicit => 1
  | .EXS_LittleEndianExplicit => 2
  | .EXS_BigEndianExplicit => 3
  | .EXS_JPEGProcess1 => 4
  | .EXS_JPEGProcess2_4 => 5
  | .EXS_JPEGProcess3_5 => 6
  | .EXS_JPEGProcess6_8 => 7
  | .EXS_JPEGProcess7_9 => 8
  | .EXS_JPEGProcess10_12 => 9
  | .EXS_JPEGProcess11_13 => 10
  | .EXS_JPEGProcess14 => 11
  | .EXS_JPEGProcess15 => 12
  | .EXS_JPEGProcess16_18 => 13
  | .EXS_JPEGProcess17_19 => 14
  | .EXS_JPEGProcess20_22 => 15
  | .EXS_JPEGProcess21_23 => 16
  | .EXS_JPEGProcess24_26 => 17
  | .EXS_JPEGProcess25_27 => 18
  | .EXS_JPEGProcess28 => 19
  | .EXS_JPEGProcess29 => 20
  | .EXS_JPEGProcess14SV1 => 21
  | .EXS_RLELossless => 22
  | .EXS_DeflatedLittleEndianExplicit => 23
  | .EXS_JPEGLSLossless => 24
  | .EXS_JPEGLSLossy => 25
  | .EXS_JPEG2000LosslessOnly => 26
  | .EXS_JPEG2000 => 27
  | .EXS_JPEG2000MulticomponentLosslessOnly => 28
  | .EXS_JPEG2000Multicomponent => 29
  | .EXS_JPIPReferenced => 30
  | .EXS_JPIPReferencedDeflate => 31
  | .EXS_MPEG2MainProfileAtMainLevel => 32
  | .EXS_FragmentableMPEG2MainProfileMainLevel => 33
  | .EXS_MPEG2MainProfileAtHighLevel => 34
  | .EXS_FragmentableMPEG2MainProfileHighLevel => 35
  | .EXS_MPEG4HighProfileLevel4_1 => 36
  | .EXS_FragmentableMPEG4HighProfileLevel4_1 => 37
  | .EXS_MPEG4BDcompatibleHighProfileLevel4_1 => 38
  | .EXS_FragmentableMPEG4BDcompatibleHighProfileLevel4_1 => 39
  | .EXS_MPEG4HighProfileLevel4_2_For2DVideo => 40
  | .EXS_FragmentableMPEG4HighProfileLevel4_2_For2DVideo => 41
  | .EXS_MPEG4HighProfileLevel4_2_For3DVideo => 42
  | .EXS_FragmentableMPEG4HighProfileLevel4_2_For3DVideo => 43
  | .EXS_MPEG4StereoHighProfileLevel4_2 => 44
  | .EXS_FragmentableMPEG4StereoHighProfileLevel4_2 => 45
  | .EXS_HEVCMainProfileLevel5_1 => 46
  | .EXS_HEVCMain10ProfileLevel5_1 => 47
  | .EXS_HighThroughputJPEG2000LosslessOnly => 48
  | .EXS_HighThroughputJPEG2000withRPCLOptionsLosslessOnly => 49
  | .EXS_HighThroughputJPEG2000 => 50
  | .EXS_JPIPHTJ2KReferenced => 51
  | .EXS_JPIPHTJ2KReferencedDeflate => 52
  | .EXS_PrivateGE_LEI_WithBigEndianPixelData => 53

/-- The enumerators other than `EXS_Unknown`, in declaration order. -/
def E_TransferSyntax.wellKnown : List E_TransferSyntax :=
  [.EXS_LittleEndianImplicit,
   .EXS_BigEndianImplicit,
   .EXS_LittleEndianExplicit,
   .EXS_BigEndianExplicit,
   .EXS_JPEGProcess1,
   .EXS_JPEGProcess2_4,
   .EXS_JPEGProcess3_5,
   .EXS_JPEGProcess6_8,
   .EXS_JPEGProcess7_9,
   .EXS_JPEGProcess10_12,
   .EXS_JPEGProcess11_13,
   .EXS_JPEGProcess14,
   .EXS_JPEGProcess15,
   .EXS_JPEGProcess16_18,
   .EXS_JPEGProcess17_19,
   .EXS_JPEGProcess20_22,
   .EXS_JPEGProcess21_23,
   .EXS_JPEGProcess24_26,
   .EXS_JPEGProcess25_27,
   .EXS_JPEGProcess28,
   .EXS_JPEGProcess29,
   .EXS_JPEGProcess14SV1,
   .EXS_RLELossless,
   .EXS_DeflatedLittleEndianExplicit,
   .EXS_JPEGLSLossless,
   .EXS_JPEGLSLossy,
   .EXS_JPEG2000LosslessOnly,
   .EXS_JPEG2000,
   .EXS_JPEG2000MulticomponentLosslessOnly,
   .EXS_JPEG2000Multicomponent,
   .EXS_JPIPReferenced,
   .EXS_JPIPReferencedDeflate,
   .EXS_MPEG2MainProfileAtMainLevel,
   .EXS_FragmentableMPEG2MainProfileMainLevel,
   .EXS_MPEG2MainProfileAtHighLevel,
   .EXS_FragmentableMPEG2MainProfileHighLevel,
   .EXS_MPEG4HighProfileLevel4_1,
   .EXS_FragmentableMPEG4HighProfileLevel4_1,
   .EXS_MPEG4BDcompatibleHighProfileLevel4_1,
   .EXS_FragmentableMPEG4BDcompatibleHighProfileLevel4_1,
   .EXS_MPEG4HighProfileLevel4_2_For2DVideo,
   .EXS_FragmentableMPEG4HighProfileLevel4_2_For2DVideo,
   .EXS_MPEG4HighProfileLevel4_2_For3DVideo,
   .EXS_FragmentableMPEG4HighProfileLevel4_2_For3DVideo,
   .EXS_MPEG4StereoHighProfileLevel4_2,
   .EXS_FragmentableMPEG4StereoHighProfileLevel4_2,
   .EXS_HEVCMainProfileLevel5_1,
   .EXS_HEVCMain10ProfileLevel5_1,
   .EXS_HighThroughputJPEG2000LosslessOnly,
   .EXS_HighThroughputJPEG2000withRPCLOptionsLosslessOnly,
   .EXS_HighThroughputJPEG2000,
   .EXS_JPIPHTJ2KReferenced,
   .EXS_JPIPHTJ2KReferencedDeflate,
   .EXS_PrivateGE_LEI_WithBigEndianPixelData]

/-- Enumeration of byte orders. -/
inductive E_ByteOrder where
  | EBO_unknown
  | EBO_LittleEndian
  | EBO_BigEndian
  deriving DecidableEq, Repr

/-- Numeric code of a byte order. -/
def E_ByteOrder.toInt : E_ByteOrder → Int
  | .EBO_unknown => 0
  | .EBO_LittleEndian => 1
  | .EBO_BigEndian => 2

/-- Enumeration of VR encoding options. -/
inductive E_VRType where
  | EVT_Implicit
  | EVT_Explicit
  deriving DecidableEq, Repr

/-- Enumeration of pixel data encapsulation options. -/
inductive E_JPEGEncapsulated where
  | EJE_NotEncapsulated
  | EJE_Encapsulated
  deriving DecidableEq, Repr

/-- Enumeration of stream compression techniques (`ESC_zlib` exists when the toolkit is
built with zlib support). -/
inductive E_StreamCompression where
  | ESC_none
  | ESC_unsupported
  | ESC_zlib
  deriving DecidableEq, Repr

open E_TransferSyntax E_ByteOrder E_VRType E_JPEGEncapsulated E_StreamCompression

/-! ## The descriptor class `DcmXfer` -/

/-- The private data members of class `DcmXfer`, in declaration order. `Uint32` members
are natural numbers (they are only stored and returned, never computed with). -/
structure DcmXfer where
  xferID : String
  xferName : String
  xferSyn : E_TransferSyntax
  byteOrder : E_ByteOrder
  pixelDataByteOrder : E_ByteOrder
  vrType : E_VRType
  encapsulated : E_JPEGEncapsulated
  JPEGProcess8 : Nat
  JPEGProcess12 : Nat
  lossy : Bool
  retired : Bool
  streamCompression : E_StreamCompression
  referenced : Bool
  fragmentable : Bool
  deriving DecidableEq, Repr

namespace DcmXfer

/-- Transfer syntax enum of this descriptor: `getXfer()`. -/
def getXfer (x : DcmXfer) : E_TransferSyntax := x.xferSyn

/-- Comparison `operator==(const E_TransferSyntax)`. -/
def eqEnum (x : DcmXfer) (xfer : E_TransferSyntax) : Bool := x.xferSyn == xfer

/-- Comparison `operator==(const DcmXfer &)`. -/
def eq (x xfer : DcmXfer) : Bool := x.xferSyn == xfer.getXfer

/-- Comparison `operator!=(const E_TransferSyntax)`. -/
def neEnum (x : DcmXfer) (xfer : E_TransferSyntax) : Bool := x.xferSyn != xfer

/-- Comparison `operator!=(const DcmXfer &)`. -/
def ne (x xfer : DcmXfer) : Bool := x.xferSyn != xfer.getXfer

/-- Byte order of this transfer syntax: `getByteOrder()`. -/
def getByteOrder (x : DcmXfer) : E_ByteOrder := x.byteOrder

/-- Byte order of the pixel data: `getPixelDataByteOrder()`. -/
def getPixelDataByteOrder (x : DcmXfer) : E_ByteOrder := x.pixelDataByteOrder

/-- Name string: `getXferName()`. -/
def getXferName (x : DcmXfer) : String := x.xferName

/-- UID string: `getXferID()`. -/
def getXferID (x : DcmXfer) : String := x.xferID

/-- True if the transfer syntax is little endian. -/
def isLittleEndian (x : DcmXfer) : Bool := x.byteOrder == EBO_LittleEndian

/-- True if the transfer syntax is big endian. -/
def isBigEndian (x : DcmXfer) : Bool := x.byteOrder == EBO_BigEndian

/-- True if the transfer syntax is implicit VR. -/
def isImplicitVR (x : DcmXfer) : Bool := x.vrType == EVT_Implicit

/-- True if the transfer syntax is explicit VR. -/
def isExplicitVR (x : DcmXfer) : Bool := x.vrType == EVT_Explicit

/-- True if the transfer syntax is encapsulated. -/
def isEncapsulated (x : DcmXfer) : Bool := x.encapsulated == EJE_Encapsulated

/-- True if the transfer syntax is native (not encapsulated). -/
def isNotEncapsulated (x : DcmXfer) : Bool := x.encapsulated == EJE_NotEncapsulated

/-- The 8-bit JPEG process ID: `getJPEGProcess8Bit()`. -/
def getJPEGProcess8Bit (x : DcmXfer) : Nat := x.JPEGProcess8

/-- The 12-bit JPEG process ID: `getJPEGProcess12Bit()`. -/
def getJPEGProcess12Bit (x : DcmXfer) : Nat := x.JPEGProcess12

/-- True if the transfer syntax uses a lossy compression. -/
def isLossy (x : DcmXfer) : Bool := x.lossy

/-- True if the transfer syntax uses a lossless compression or no compression. -/
def isLossless (x : DcmXfer) : Bool := !x.lossy

/-- True if the transfer syntax is retired. -/
def isRetired (x : DcmXfer) : Bool := x.retired

/-- Stream compression type: `getStreamCompression()`. -/
def getStreamCompression (x : DcmXfer) : E_StreamCompression := x.streamCompression

/-- True if the transfer syntax references pixel data by URL. -/
def isReferenced (x : DcmXfer) : Bool := x.referenced

/-- True if the transfer syntax supports fragmentable pixel data. -/
def isFragmentable (x : DcmXfer) : Bool := x.fragmentable

end DcmXfer

/-! ## The transfer syntax table and the out-of-line members of `DcmXfer`

The header declares the two constructors, `getXferKeyword` and `sizeofTagHeader` but does
not define them, and the table they read is not part of the header. They are modelled
from the specification; the table itself is a parameter. -/

/-- Modelled from the spec: a row of the transfer syntax table (the spec's property
bundle of one identity), which the header does not contain. The row carries the values of
all data members of the descriptor built from it, and the keyword string that
`getXferKeyword` reports. -/
structure XferEntry where
  xfer : DcmXfer
  keyword : String
  deriving DecidableEq, Repr

/-- Modelled from the spec: the transfer syntax catalog, an immutable table of rows.
Alias rows are further rows that carry an identity already present. -/
abbrev Catalog := List XferEntry

/-- Modelled from the spec: the sentinel bundle of the `Unknown` identity (empty strings,
unknown byte order, implicit VR, not encapsulated, no JPEG process, not lossy, not
retired, no stream compression, not referenced, not fragmentable). -/
def unknownEntry : XferEntry where
  xfer :=
    { xferID := ""
      xferName := ""
      xferSyn := EXS_Unknown
      byteOrder := EBO_unknown
      pixelDataByteOrder := EBO_unknown
      vrType := EVT_Implicit
      encapsulated := EJE_NotEncapsulated
      JPEGProcess8 := 0
      JPEGProcess12 := 0
      lossy := false
      retired := false
      streamCompression := ESC_none
      referenced := false
      fragmentable := false }
  keyword := ""

/-- Modelled from the spec: `lookup(identity)` of the catalog, which is total. The
`Unknown` identity, and an identity without a row, map to the sentinel bundle; any other
identity maps to its first row. -/
def Catalog.lookup (cat : Catalog) (xfer : E_TransferSyntax) : XferEntry :=
  if xfer = EXS_Unknown then unknownEntry
  else (cat.find? (fun r => r.xfer.xferSyn == xfer)).getD unknownEntry

/-- Modelled from the spec: `findByUID`, an exact and case-sensitive match of the whole
string against the UID strings of the table; no match yields `Unknown`. -/
def Catalog.findByUID (cat : Catalog) (uid : String) : E_TransferSyntax :=
  match cat.find? (fun r => r.xfer.xferID == uid) with
  | some r => r.xfer.xferSyn
  | none => EXS_Unknown

/-- Modelled from the spec: `findByKeyword`, an exact and case-sensitive match of the
whole string against the keyword strings of the table; no match yields `Unknown`. -/
def Catalog.findByKeyword (cat : Catalog) (keyword : String) : E_TransferSyntax :=
  match cat.find? (fun r => r.keyword == keyword) with
  | some r => r.xfer.xferSyn
  | none => EXS_Unknown

/-- Modelled from the spec: the constructor `DcmXfer(E_TransferSyntax)`, whose body is
not in the header: the descriptor of the catalog entry of the identity. -/
def DcmXfer.ofEnum (cat : Catalog) (xfer : E_TransferSyntax) : DcmXfer :=
  (cat.lookup xfer).xfer

/-- Modelled from the spec: identity lookup from a string, by UID first and by keyword
when no UID matches. -/
def Catalog.identify (cat : Catalog) (s : String) : E_TransferSyntax :=
  match cat.findByUID s with
  | EXS_Unknown => cat.findByKeyword s
  | xfer => xfer

/-- Modelled from the spec: the constructor `DcmXfer(const char *)`, whose body is not in
the header. It never fails: an unrecognised string gives the sentinel descriptor. -/
def DcmXfer.ofString (cat : Catalog) (s : String) : DcmXfer :=
  DcmXfer.ofEnum cat (cat.identify s)

/-- Modelled from the spec: `getXferKeyword()`, declared in the header without a body:
the keyword string of the catalog entry of the descriptor. -/
def DcmXfer.getXferKeyword (cat : Catalog) (x : DcmXfer) : String :=
  (cat.lookup x.xferSyn).keyword

/-- Modelled from the spec: the value representations with the short form of the
explicit VR header (2-byte length field). The spec names `US` and `AE` among them and
puts the OB, OW, OF, OD, OL, OV families, SQ, UC, UT and UN in the long form; the list is the
set of value representations with a 16-bit length of DICOM PS3.5, section 7.1.2. -/
def shortFormVRs : List String :=
  ["AE", "AS", "AT", "CS", "DA", "DS", "DT", "FD", "FL", "IS", "LO", "LT", "PN", "SH",
   "SL", "SS", "ST", "TM", "UI", "UL", "US"]

/-- Modelled from the spec: whether a value representation uses the long form of the
explicit VR header. Every value representation that is not a recognised short form one is
treated as long form. -/
def usesExtendedLengthEncoding (evr : String) : Bool :=
  !(shortFormVRs.contains evr)

/-- Modelled from the spec: `sizeofTagHeader(evr)`, declared in the header without a
body (the type `DcmEVR` of `dcvr.h` is absent too; a value representation is its two
letter code). Implicit VR: 8 bytes. Explicit VR: 12 bytes for the long form, 8 bytes for
the short form. -/
def DcmXfer.sizeofTagHeader (x : DcmXfer) (evr : String) : Nat :=
  if x.isImplicitVR then 8
  else if usesExtendedLengthEncoding evr then 12
  else 8

/-! ## Character set conversion (`OFCharacterEncoding`)

Only the test program `ofstd/tests/tchrenc.cc` is available; class `OFCharacterEncoding`
wraps an external conversion library. A byte string is a list of natural numbers below
256; a conversion decodes the input to Unicode code points and encodes them again. -/

/-- Modelled from the spec: the character encodings that the test selects by name. -/
inductive Encoding where
  | ascii
  | latin1
  | utf8
  deriving DecidableEq, Repr

/-- Modelled from the spec: the encoding that `selectEncoding` (absent) finds for a name.
The empty name stands for the encoding of the current locale; a name that is not listed
is not known. -/
def Encoding.ofName (localeEncoding : Encoding) (name : String) : Option Encoding :=
  if name = "" then some localeEncoding
  else if name = "ASCII" then some Encoding.ascii
  else if name = "ISO-8859-1" then some Encoding.latin1
  else if name = "UTF-8" then some Encoding.utf8
  else none

/-- Modelled from the spec: part of the conversion that `convertString` (absent) leaves
to the external library. True for a continuation byte `10xxxxxx` of UTF-8. -/
def isContinuation (b : Nat) : Bool := 0x80 ≤ b && b < 0xC0

/-- Modelled from the spec: part of the conversion that `convertString` (absent) leaves
to the external library. UTF-8 byte sequence of one code point; surrogates and values
above `0x10FFFF` have none. -/
def utf8EncodeChar (cp : Nat) : Option (List Nat) :=
  if cp < 0x80 then some [cp]
  else if cp < 0x800 then some [0xC0 + cp / 64, 0x80 + cp % 64]
  else if cp < 0x10000 then
    if 0xD800 ≤ cp ∧ cp < 0xE000 then none
    else some [0xE0 + cp / 4096, 0x80 + cp / 64 % 64, 0x80 + cp % 64]
  else if cp < 0x110000 then
    some [0xF0 + cp / 262144, 0x80 + cp / 4096 % 64, 0x80 + cp / 64 % 64, 0x80 + cp % 64]
  else none

/-- Modelled from the spec: part of the conversion that `convertString` (absent) leaves
to the external library. UTF-8 byte string of a sequence of code points. -/
def utf8Encode : List Nat → Option (List Nat)
  | [] => some []
  | cp :: cps =>
    match utf8EncodeChar cp, utf8Encode cps with
    | some bs, some rest => some (bs ++ rest)
    | _, _ => none

/-- Modelled from the spec: part of the conversion that `convertString` (absent) leaves
to the external library. First code point of a UTF-8 byte string and the number of bytes
it takes; `none` for an empty or ill-formed start (stray or missing continuation byte, overlong form,
surrogate, value above `0x10FFFF`, byte above 255). -/
def utf8DecodeChar : List Nat → Option (Nat × Nat)
  | [] => none
  | b0 :: rest =>
    if b0 < 0x80 then some (b0, 1)
    else if b0 < 0xC2 then none
    else if b0 < 0xE0 then
      match rest with
      | b1 :: _ =>
        if isContinuation b1 then some ((b0 - 0xC0) * 64 + (b1 - 0x80), 2) else none
      | _ => none
    else if b0 < 0xF0 then
      match rest with
      | b1 :: b2 :: _ =>
        let cp := (b0 - 0xE0) * 4096 + (b1 - 0x80) * 64 + (b2 - 0x80)
        if isContinuation b1 && isContinuation b2 && decide (0x800 ≤ cp)
            && !(decide (0xD800 ≤ cp) && decide (cp < 0xE000)) then some (cp, 3)
        else none
      | _ => none
    else if b0 < 0xF5 then
      match rest with
      | b1 :: b2 :: b3 :: _ =>
        let cp := (b0 - 0xF0) * 262144 + (b1 - 0x80) * 4096 + (b2 - 0x80) * 64 + (b3 - 0x80)
        if isContinuation b1 && isContinuation b2 && isContinuation b3
            && decide (0x10000 ≤ cp) && decide (cp < 0x110000) then some (cp, 4)
        else none
      | _ => none
    else none

/-- Modelled from the spec: part of the conversion that `convertString` (absent) leaves
to the external library. Code points of a UTF-8 byte string of which the first `skip`
bytes belong to a code point that is already decoded. -/
def utf8DecodeSkip : Nat → List Nat → Option (List Nat)
  | 0, [] => some []
  | _ + 1, [] => none
  | skip + 1, _ :: rest => utf8DecodeSkip skip rest
  | 0, b :: rest =>
    match utf8DecodeChar (b :: rest) with
    | some (cp, n) => (utf8DecodeSkip (n - 1) rest).map (fun cps => cp :: cps)
    | none => none

/-- Modelled from the spec: part of the conversion that `convertString` (absent) leaves
to the external library. Code points of a UTF-8 byte string; `none` for an ill-formed
string. -/
def utf8Decode (s : List Nat) : Option (List Nat) := utf8DecodeSkip 0 s

/-- Modelled from the spec: part of the conversion that `convertString` (absent) leaves
to the external library. Code points of a byte string in a given encoding, `none` for an
illegal input. -/
def Encoding.decode : Encoding → List Nat → Option (List Nat)
  | Encoding.ascii, s => if s.all (fun b => decide (b < 0x80)) then some s else none
  | Encoding.latin1, s => if s.all (fun b => decide (b < 0x100)) then some s else none
  | Encoding.utf8, s => utf8Decode s

/-- Modelled from the spec: part of the conversion that `convertString` (absent) leaves
to the external library. Byte string of a sequence of code points in a given encoding,
`none` when a code point has no representation there (neither transliteration nor discarding is modelled: both
modes are off by default). -/
def Encoding.encode : Encoding → List Nat → Option (List Nat)
  | Encoding.ascii, cps => if cps.all (fun c => decide (c < 0x80)) then some cps else none
  | Encoding.latin1, cps => if cps.all (fun c => decide (c < 0x100)) then some cps else none
  | Encoding.utf8, cps => utf8Encode cps

/-- Modelled from the spec: the state of an `OFCharacterEncoding` object, a class that
is not among the sources: the encoding of the locale and the selected pair of source and
destination encoding, if any. -/
structure OFCharacterEncoding where
  localeEncoding : Encoding
  conversion : Option (Encoding × Encoding)
  deriving DecidableEq, Repr

/-- Modelled from the spec: `selectEncoding(from, to) -> Result`. The result is good
exactly when both names are known; the pair is then selected, otherwise nothing is. -/
def OFCharacterEncoding.selectEncoding (ce : OFCharacterEncoding)
    (fromEncoding toEncoding : String) : Bool × OFCharacterEncoding :=
  match Encoding.ofName ce.localeEncoding fromEncoding,
        Encoding.ofName ce.localeEncoding toEncoding with
  | some f, some t => (true, { ce with conversion := some (f, t) })
  | _, _ => (false, { ce with conversion := none })

/-- Modelled from the spec: `clear()`, after which no pair of encodings is selected. -/
def OFCharacterEncoding.clear (ce : OFCharacterEncoding) : OFCharacterEncoding :=
  { ce with conversion := none }

/-- Modelled from the spec: `convert(bytes) -> Result<bytes>` (`convertString`), `none`
for a bad result: no encoding selected, illegal input, or a character that the
destination encoding lacks. -/
def OFCharacterEncoding.convertString (ce : OFCharacterEncoding) (s : List Nat) :
    Option (List Nat) :=
  match ce.conversion with
  | none => none
  | some (f, t) => (f.decode s).bind t.encode

/-! ## Concrete inputs -/

/-- A catalog of two rows, used as a concrete input: the two transfer syntaxes whose UID
strings the spec spells out, with their DICOM names and keywords. -/
def sampleCatalog : Catalog :=
  [ { xfer :=
        { xferID := "1.2.840.10008.1.2"
          xferName := "Little Endian Implicit"
          xferSyn := EXS_LittleEndianImplicit
          byteOrder := EBO_LittleEndian
          pixelDataByteOrder := EBO_LittleEndian
          vrType := EVT_Implicit
          encapsulated := EJE_NotEncapsulated
          JPEGProcess8 := 0
          JPEGProcess12 := 0
          lossy := false
          retired := false
          streamCompression := ESC_none
          referenced := false
          fragmentable := false }
      keyword := "ImplicitVRLittleEndian" },
    { xfer :=
        { xferID := "1.2.840.10008.1.2.1"
          xferName := "Little Endian Explicit"
          xferSyn := EXS_LittleEndianExplicit
          byteOrder := EBO_LittleEndian
          pixelDataByteOrder := EBO_LittleEndian
          vrType := EVT_Explicit
          encapsulated := EJE_NotEncapsulated
          JPEGProcess8 := 0
          JPEGProcess12 := 0
          lossy := false
          retired := false
          streamCompression := ESC_none
          referenced := false
          fragmentable := false }
      keyword := "ExplicitVRLittleEndian" } ]

/-- The byte string `"J\366rg"` of the conversion test. -/
def joergLatin1 : List Nat := [74, 246, 114, 103]

/-- The byte string `"J\303\266rg"` of the conversion test. -/
def joergUtf8 : List Nat := [74, 195, 182, 114, 103]

/-- A freshly constructed conversion object: no encoding selected yet. -/
def freshEncoding (localeEncoding : Encoding) : OFCharacterEncoding :=
  { localeEncoding := localeEncoding, conversion := none }

/-- The huge string of the conversion test: 4096 bytes, byte `i` is `32 + (i % 224)`. -/
def hugeStr : List Nat := (List.range 4096).map (fun i => 32 + i % 224)

/-! ## Tag header size -/

/-- C1: for every descriptor with implicit VR encoding and every value representation,
`sizeofTagHeader` returns 8. -/
theorem sizeofTagHeader_implicit (x : DcmXfer) (evr : String) (h : x.isImplicitVR = true) :
    x.sizeofTagHeader evr = 8 := by
  simp [DcmXfer.sizeofTagHeader, h]

theorem sizeofTagHeader_implicit_witness :
    (DcmXfer.ofString sampleCatalog "1.2.840.10008.1.2").isImplicitVR = true ∧
      (DcmXfer.ofString sampleCatalog "1.2.840.10008.1.2").sizeofTagHeader "OB" = 8 :=
  ⟨by decide, sizeofTagHeader_implicit _ "OB" (by decide)⟩

/-- C2: for every descriptor with explicit VR encoding, `sizeofTagHeader` returns 12 for
the value representations OB, SQ and UN, and 8 for US and AE. -/
theorem sizeofTagHeader_explicit (x : DcmXfer) (h : x.isExplicitVR = true) :
    x.sizeofTagHeader "OB" = 12 ∧ x.sizeofTagHeader "SQ" = 12 ∧ x.sizeofTagHeader "UN" = 12 ∧
      x.sizeofTagHeader "US" = 8 ∧ x.sizeofTagHeader "AE" = 8 := by
  have himp : x.isImplicitVR = false := by
    cases hv : x.vrType <;> simp_all [DcmXfer.isImplicitVR, DcmXfer.isExplicitVR]
  simp only [DcmXfer.sizeofTagHeader, himp]
  decide

theorem sizeofTagHeader_explicit_witness :
    (DcmXfer.ofString sampleCatalog "1.2.840.10008.1.2.1").isExplicitVR = true ∧
      (DcmXfer.ofString sampleCatalog "1.2.840.10008.1.2.1").sizeofTagHeader "OB" = 12 ∧
      (DcmXfer.ofString sampleCatalog "1.2.840.10008.1.2.1").sizeofTagHeader "US" = 8 :=
  ⟨by decide,
    (sizeofTagHeader_explicit _ (by decide)).1,
    (sizeofTagHeader_explicit (DcmXfer.ofString sampleCatalog "1.2.840.10008.1.2.1")
      (by decide)).2.2.2.1⟩

/-! ## Comparison and the inline queries -/

/-- C4: `operator==` on two descriptors is true exactly when their transfer syntax enums
are equal, whatever the other data members hold; two descriptors that hold `EXS_Unknown`
are equal. -/
theorem eq_iff_getXfer :
    (∀ a b : DcmXfer, a.eq b = true ↔ a.getXfer = b.getXfer) ∧
      (∀ a b : DcmXfer,
        DcmXfer.eq { a with xferSyn := EXS_Unknown } { b with xferSyn := EXS_Unknown } = true) := by
  constructor
  · intro a b
    simp [DcmXfer.eq, DcmXfer.getXfer]
  · intro a b
    simp [DcmXfer.eq, DcmXfer.getXfer]

/-- C5: for every descriptor exactly one of `isLossy()` and `isLossless()` is true. -/
theorem isLossy_xor_isLossless (x : DcmXfer) :
    (x.isLossy != x.isLossless) = true ∧ xor x.isLossy x.isLossless = true := by
  cases h : x.lossy <;> simp [DcmXfer.isLossy, DcmXfer.isLossless, h]

/-! ## The enumeration of transfer syntaxes -/

/-- C9: every variant of `E_TransferSyntax` is `EXS_Unknown` or one of 54 well-known
variants; the codes of the well-known variants are the integers 0 to 53, each once; the
code of `EXS_Unknown` is -1; no two variants share a code. -/
theorem enum_codes :
    (∀ x : E_TransferSyntax, x = EXS_Unknown ∨ x ∈ E_TransferSyntax.wellKnown) ∧
      EXS_Unknown ∉ E_TransferSyntax.wellKnown ∧
      E_TransferSyntax.wellKnown.length = 54 ∧
      E_TransferSyntax.wellKnown.map E_TransferSyntax.toInt
        = (List.range 54).map (fun n : Nat => (n : Int)) ∧
      E_TransferSyntax.toInt EXS_Unknown = -1 ∧
      E_TransferSyntax.toInt EXS_Unknown ∉
        E_TransferSyntax.wellKnown.map E_TransferSyntax.toInt ∧
      Function.Injective E_TransferSyntax.toInt := by
  have hall : ∀ x : E_TransferSyntax, x = EXS_Unknown ∨ x ∈ E_TransferSyntax.wellKnown := by
    intro x
    cases x <;> simp [E_TransferSyntax.wellKnown]
  have hnd : ((EXS_Unknown :: E_TransferSyntax.wellKnown).map E_TransferSyntax.toInt).Nodup := by
    decide
  refine ⟨hall, by decide, by decide, by decide, rfl, by decide, ?_⟩
  intro a b hab
  have ha : a ∈ EXS_Unknown :: E_TransferSyntax.wellKnown := List.mem_cons.mpr (hall a)
  have hb : b ∈ EXS_Unknown :: E_TransferSyntax.wellKnown := List.mem_cons.mpr (hall b)
  exact List.inj_on_of_nodup_map hnd ha hb hab

/-! ## Character set round trip -/

theorem utf8DecodeChar_ascii (b : Nat) (t : List Nat) (h : b < 0x80) :
    utf8DecodeChar (b :: t) = some (b, 1) := by
  simp [utf8DecodeChar, h]

theorem utf8DecodeChar_two (x y : Nat) (t : List Nat) (hx1 : 2 ≤ x) (hx2 : x < 32)
    (hy : y < 64) :
    utf8DecodeChar ((0xC0 + x) :: (0x80 + y) :: t) = some (x * 64 + y, 2) := by
  have h1 : ¬ (0xC0 + x < 0x80) := by omega
  have h2 : ¬ (0xC0 + x < 0xC2) := by omega
  have h3 : 0xC0 + x < 0xE0 := by omega
  have h4 : isContinuation (0x80 + y) = true := by
    simp [isContinuation]; omega
  simp only [utf8DecodeChar, h1, h2, h3, h4, if_true, if_false]
  have e1 : 0xC0 + x - 0xC0 = x := by omega
  have e2 : 0x80 + y - 0x80 = y := by omega
  rw [e1, e2]

theorem utf8Decode_cons_ascii (b : Nat) (t : List Nat) (h : b < 0x80) :
    utf8Decode (b :: t) = (utf8Decode t).map (fun cps => b :: cps) := by
  simp only [utf8Decode, utf8DecodeSkip, utf8DecodeChar_ascii b t h, Nat.sub_self]

theorem utf8Decode_cons_two (x y : Nat) (t : List Nat) (hx1 : 2 ≤ x) (hx2 : x < 32)
    (hy : y < 64) :
    utf8Decode ((0xC0 + x) :: (0x80 + y) :: t)
      = (utf8Decode t).map (fun cps => (x * 64 + y) :: cps) := by
  simp only [utf8Decode, utf8DecodeSkip, utf8DecodeChar_two x y t hx1 hx2 hy]

theorem utf8Encode_cons_ascii (b : Nat) (s t : List Nat) (h : b < 0x80)
    (ht : utf8Encode s = some t) : utf8Encode (b :: s) = some (b :: t) := by
  simp [utf8Encode, utf8EncodeChar, h, ht]

theorem utf8Encode_cons_two (b : Nat) (s t : List Nat) (h1 : ¬ b < 0x80) (h2 : b < 0x800)
    (ht : utf8Encode s = some t) :
    utf8Encode (b :: s) = some ((0xC0 + b / 64) :: (0x80 + b % 64) :: t) := by
  simp [utf8Encode, utf8EncodeChar, h1, h2, ht]

theorem utf8_roundtrip_latin1 : ∀ s : List Nat, (∀ b ∈ s, b < 256) →
    ∃ t, utf8Encode s = some t ∧ utf8Decode t = some s := by
  intro s
  induction s with
  | nil => intro _; exact ⟨[], rfl, rfl⟩
  | cons b s ih =>
    intro h
    obtain ⟨t, ht1, ht2⟩ := ih (fun c hc => h c (List.mem_cons_of_mem _ hc))
    have hb : b < 256 := h b (List.mem_cons_self _ _)
    by_cases hlt : b < 0x80
    · refine ⟨b :: t, utf8Encode_cons_ascii b s t hlt ht1, ?_⟩
      rw [utf8Decode_cons_ascii b t hlt, ht2]
      rfl
    · refine ⟨(0xC0 + b / 64) :: (0x80 + b % 64) :: t,
        utf8Encode_cons_two b s t hlt (by omega) ht1, ?_⟩
      rw [utf8Decode_cons_two (b / 64) (b % 64) t (by omega) (by omega) (by omega), ht2]
      have hdm : b / 64 * 64 + b % 64 = b := by omega
      simp [hdm]

theorem latin1_all_of_bytes (s : List Nat) (hs : ∀ b ∈ s, b < 256) :
    s.all (fun b => decide (b < 0x100)) = true := by
  rw [List.all_eq_true]
  intro b hb
  exact decide_eq_true (hs b hb)

/-- C10: for every byte string (an ISO-8859-1 string), selecting the pair
(ISO-8859-1, UTF-8) is good and converting the string is good, and selecting the pair
(UTF-8, ISO-8859-1) afterwards is good and converting the first result is good and
returns the string. -/
theorem convert_latin1_utf8_roundtrip (ce : OFCharacterEncoding) (s : List Nat)
    (hs : ∀ b ∈ s, b < 256) :
    (ce.selectEncoding "ISO-8859-1" "UTF-8").1 = true ∧
      ∃ t, (ce.selectEncoding "ISO-8859-1" "UTF-8").2.convertString s = some t ∧
        ((ce.selectEncoding "ISO-8859-1" "UTF-8").2.selectEncoding "UTF-8" "ISO-8859-1").1
          = true ∧
        ((ce.selectEncoding "ISO-8859-1" "UTF-8").2.selectEncoding "UTF-8"
          "ISO-8859-1").2.convertString t = some s := by
  obtain ⟨t, ht1, ht2⟩ := utf8_roundtrip_latin1 s hs
  have hall := latin1_all_of_bytes s hs
  have hn1 : ∀ l, Encoding.ofName l "ISO-8859-1" = some Encoding.latin1 := by
    intro l; simp [Encoding.ofName]
  have hn2 : ∀ l, Encoding.ofName l "UTF-8" = some Encoding.utf8 := by
    intro l; simp [Encoding.ofName]
  refine ⟨?_, t, ?_, ?_, ?_⟩
  · simp [OFCharacterEncoding.selectEncoding, hn1, hn2]
  · simp [OFCharacterEncoding.selectEncoding, OFCharacterEncoding.convertString, hn1, hn2,
      Encoding.decode, Encoding.encode, hall, ht1]
  · simp [OFCharacterEncoding.selectEncoding, hn1, hn2]
  · simp [OFCharacterEncoding.selectEncoding, OFCharacterEncoding.convertString, hn1, hn2,
      Encoding.decode, Encoding.encode, ht2]
    exact hs

theorem convert_latin1_utf8_roundtrip_witness :
    (∀ b ∈ joergLatin1, b < 256) ∧
      ((freshEncoding Encoding.ascii).selectEncoding "ISO-8859-1" "UTF-8").2.convertString
        joergLatin1 = some joergUtf8 ∧
      joergUtf8.length = 5 ∧
      (((freshEncoding Encoding.ascii).selectEncoding "ISO-8859-1" "UTF-8").2.selectEncoding
        "UTF-8" "ISO-8859-1").2.convertString joergUtf8 = some joergLatin1 ∧
      ∃ t, ((freshEncoding Encoding.ascii).selectEncoding "ISO-8859-1"
          "UTF-8").2.convertString joergLatin1 = some t ∧
        (((freshEncoding Encoding.ascii).selectEncoding "ISO-8859-1" "UTF-8").2.selectEncoding
          "UTF-8" "ISO-8859-1").1 = true ∧
        (((freshEncoding Encoding.ascii).selectEncoding "ISO-8859-1" "UTF-8").2.selectEncoding
          "UTF-8" "ISO-8859-1").2.convertString t = some joergLatin1 :=
  ⟨by decide, by decide, by decide, by decide,
    (convert_latin1_utf8_roundtrip (freshEncoding Encoding.ascii) joergLatin1 (by decide)).2⟩

/-! ## Length of a conversion to UTF-8 -/

theorem utf8Encode_length_latin1 : ∀ s : List Nat, (∀ b ∈ s, b < 256) →
    ∃ t, utf8Encode s = some t ∧
      t.length = s.length + s.countP (fun b => decide (128 ≤ b)) := by
  intro s
  induction s with
  | nil => intro _; exact ⟨[], rfl, rfl⟩
  | cons b s ih =>
    intro h
    obtain ⟨t, ht1, ht2⟩ := ih (fun c hc => h c (List.mem_cons_of_mem _ hc))
    have hb : b < 256 := h b (List.mem_cons_self _ _)
    by_cases hlt : b < 0x80
    · refine ⟨b :: t, utf8Encode_cons_ascii b s t hlt ht1, ?_⟩
      have hn : ¬ (128 ≤ b) := by omega
      simp only [List.length_cons, List.countP_cons, hn, decide_False, ht2]
      simp
      omega
    · refine ⟨(0xC0 + b / 64) :: (0x80 + b % 64) :: t,
        utf8Encode_cons_two b s t hlt (by omega) ht1, ?_⟩
      have hp : 128 ≤ b := by omega
      simp only [List.length_cons, List.countP_cons, hp, decide_True, ht2]
      simp
      omega

theorem countP_range_period (n : Nat) :
    ((List.range n).map (fun i => 32 + i % 224)).countP (fun b => decide (128 ≤ b))
      = 128 * (n / 224) + (n % 224 - 96) := by
  induction n with
  | zero => rfl
  | succ n ih =>
    rw [List.range_succ, List.map_append, List.countP_append, ih]
    by_cases h : 128 ≤ 32 + n % 224
    · simp only [List.map_cons, List.map_nil, List.countP_cons, List.countP_nil, h, decide_True,
        if_true]
      omega
    · simp only [List.map_cons, List.map_nil, List.countP_cons, List.countP_nil, h,
        decide_False]
      simp
      omega

theorem hugeStr_length_add_count :
    hugeStr.length + hugeStr.countP (fun b => decide (128 ≤ b)) = 6400 := by
  have hc := countP_range_period 4096
  have hl : hugeStr.length = 4096 := by simp [hugeStr]
  rw [hl]
  unfold hugeStr
  rw [hc]

theorem hugeStr_bytes : ∀ b ∈ hugeStr, 32 ≤ b ∧ b ≤ 255 := by
  intro b hb
  simp only [hugeStr, List.mem_map, List.mem_range] at hb
  obtain ⟨i, _, rfl⟩ := hb
  omega

/-- C11: for every string of bytes in the range 32 to 255, of any length, selecting the
pair (ISO-8859-1, UTF-8) is good, converting the string is good, and the length of the
result is the length of the input plus the number of input bytes that are 128 or
greater. -/
theorem convert_latin1_utf8_length (ce : OFCharacterEncoding) (s : List Nat)
    (hs : ∀ b ∈ s, 32 ≤ b ∧ b ≤ 255) :
    (ce.selectEncoding "ISO-8859-1" "UTF-8").1 = true ∧
      ∃ t, (ce.selectEncoding "ISO-8859-1" "UTF-8").2.convertString s = some t ∧
        t.length = s.length + s.countP (fun b => decide (128 ≤ b)) := by
  have hbytes : ∀ b ∈ s, b < 256 := fun b hb => by have := hs b hb; omega
  obtain ⟨t, ht1, ht2⟩ := utf8Encode_length_latin1 s hbytes
  have hall := latin1_all_of_bytes s hbytes
  have hn1 : ∀ l, Encoding.ofName l "ISO-8859-1" = some Encoding.latin1 := by
    intro l; simp [Encoding.ofName]
  have hn2 : ∀ l, Encoding.ofName l "UTF-8" = some Encoding.utf8 := by
    intro l; simp [Encoding.ofName]
  refine ⟨?_, t, ?_, ht2⟩
  · simp [OFCharacterEncoding.selectEncoding, hn1, hn2]
  · simp [OFCharacterEncoding.selectEncoding, OFCharacterEncoding.convertString, hn1, hn2,
      Encoding.decode, Encoding.encode, hall, ht1]

theorem convert_latin1_utf8_length_witness :
    (∀ b ∈ hugeStr, 32 ≤ b ∧ b ≤ 255) ∧ hugeStr.length = 4096 ∧
      ∃ t, ((freshEncoding Encoding.ascii).selectEncoding "ISO-8859-1"
          "UTF-8").2.convertString hugeStr = some t ∧ t.length = 6400 :=
  ⟨hugeStr_bytes, by simp [hugeStr],
    (convert_latin1_utf8_length (freshEncoding Encoding.ascii) hugeStr hugeStr_bytes).2.imp
      (fun _ h => ⟨h.1, h.2.trans hugeStr_length_add_count⟩)⟩

/-! ## Byte order queries -/

/-- C12: for every descriptor `isLittleEndian()` and `isBigEndian()` are never both true,
and both are false exactly when the byte order is `EBO_unknown`; a descriptor with byte
order `EBO_unknown` has both false, so `isBigEndian()` is not the negation of
`isLittleEndian()`. -/
theorem endian_exclusive (x : DcmXfer) :
    ¬ (x.isLittleEndian = true ∧ x.isBigEndian = true) ∧
      ((x.isLittleEndian = false ∧ x.isBigEndian = false) ↔ x.getByteOrder = EBO_unknown) ∧
      (DcmXfer.isLittleEndian { x with byteOrder := EBO_unknown } = false ∧
        DcmXfer.isBigEndian { x with byteOrder := EBO_unknown } = false ∧
        DcmXfer.isBigEndian { x with byteOrder := EBO_unknown }
          ≠ !DcmXfer.isLittleEndian { x with byteOrder := EBO_unknown }) := by
  refine ⟨?_, ?_, ?_⟩
  · cases h : x.byteOrder <;> simp [DcmXfer.isLittleEndian, DcmXfer.isBigEndian, h]
  · cases h : x.byteOrder <;>
      simp [DcmXfer.isLittleEndian, DcmXfer.isBigEndian, DcmXfer.getByteOrder, h]
  · simp [DcmXfer.isLittleEndian, DcmXfer.isBigEndian]

end Dcmtk
